import Mathlib

/-!
Verification of the OAuth 2.0 / PKCE session core of the expo-auth-poc
repository, as a shallow embedding in Lean 4.

Sources embedded:
* `src/src/services/auth/tokenStorage.ts` — the Secure Credential Store
  (`storeTokens`, `getTokens`, `isTokenExpired`, `clearTokens`).
* `src/src/services/auth/authService.ts` — the PKCE generator and the
  Token Exchange Client / Session Controller service layer
  (`generateCodeVerifier`, `exchangeCodeForTokens`, `fetchUserInfo`,
  `refreshAccessToken`, `logoutService`, `restoreSession`,
  `getValidAccessToken`).
* `src/src/contexts/AuthContext.tsx` — the session state machine exposed to
  the UI (`login`, `logout`, `refreshToken`, `clearError`,
  `attemptSessionRestore`) over the `AuthState` snapshot.

Modelling conventions:
* JavaScript `Date.now()` is an explicit `now : Int` parameter (milliseconds).
* The five SecureStore slots are a record of `Option` values; a slot that was
  never written (or deleted) is `none`.  The source serialises the absolute
  expiry as `expiresAt.toString()` and reads it back with `parseInt(·, 10)`,
  which round-trips integer timestamps, so the `expires_at` slot is modelled
  as the integer itself.
* Network responses and the browser hand-off are oracle inputs: an
  `Option` response where `none` stands for a non-2xx / transport failure,
  and a `BrowserResult` for the `promptAsync` outcome.
* Fallible storage primitives are driven by explicit Boolean failure oracles
  (`storeFails`, `clearFails`, `readFails`) standing for the `catch` branches
  taken when SecureStore throws.
* JavaScript truthiness on optional strings (`undefined` and `''` are falsy)
  is the `truthy` predicate below.
-/

/-- Error taxonomy of `auth.types.ts` (`enum AuthErrorType`). -/
inductive AuthErrorType where
  | NETWORK_ERROR
  | INVALID_CREDENTIALS
  | TOKEN_EXPIRED
  | REFRESH_FAILED
  | USER_CANCELLED
  | UNKNOWN_ERROR
deriving DecidableEq, Repr

/-- The `AuthError` class: an error type together with its message. -/
structure AuthError where
  type : AuthErrorType
  message : String
deriving DecidableEq, Repr

/-- `interface AuthTokens` of `auth.types.ts`: the TokenSet held in memory. -/
structure AuthTokens where
  accessToken : String
  refreshToken : Option String
  idToken : Option String
  expiresIn : Int
  tokenType : String
deriving DecidableEq, Repr

/-- `interface User` of `auth.types.ts`. -/
structure User where
  id : String
  email : String
  firstName : Option String
  lastName : Option String
  profilePictureUrl : Option String
  organizationId : Option String
deriving DecidableEq, Repr

/-- `interface AuthState` of `auth.types.ts`: the session snapshot. -/
structure AuthState where
  user : Option User
  tokens : Option AuthTokens
  isLoading : Bool
  isAuthenticated : Bool
  error : Option String
deriving DecidableEq, Repr

/-- `interface TokenRefreshResponse`: the token endpoint's JSON body. -/
structure TokenRefreshResponse where
  access_token : String
  refresh_token : Option String
  id_token : Option String
  expires_in : Int
  token_type : String
deriving DecidableEq, Repr

/-- `interface UserInfoResponse`: the userinfo endpoint's JSON body. -/
structure UserInfoResponse where
  sub : String
  email : String
  given_name : Option String
  family_name : Option String
  picture : Option String
  organization_id : Option String
deriving DecidableEq, Repr

/-- The five SecureStore slots written under the `STORAGE_KEYS` of
`tokenStorage.ts`.  `none` means the key is not present. -/
structure Storage where
  access_token : Option String
  refresh_token : Option String
  id_token : Option String
  expires_at : Option Int
  token_type : Option String
deriving DecidableEq, Repr

/-- Storage with no keys set. -/
def Storage.empty : Storage := ⟨none, none, none, none, none⟩

/-- JavaScript truthiness of an optional string: `undefined` and the empty
string are falsy, every other string is truthy. -/
def truthy : Option String → Bool
  | none => false
  | some s => !s.isEmpty

/-- JavaScript `a || b` on an optional string `a` and a string `b`. -/
def jsOr (a : Option String) (b : String) : String :=
  match a with
  | some s => if s.isEmpty then b else s
  | none => b

/-- `SECURITY_CONFIG.tokenRefreshBuffer` from `environment.ts` (seconds). -/
def tokenRefreshBuffer : Int := 300

/-- `storeTokens` of `tokenStorage.ts`: computes
`expiresAt = Date.now() + expiresIn * 1000` and writes the access token,
expiry and token type; the refresh and id tokens are written only when
truthy, otherwise their previously stored values are left untouched. -/
def storeTokens (now : Int) (tokens : AuthTokens) (s : Storage) : Storage :=
  let expiresAt := now + tokens.expiresIn * 1000
  { access_token := some tokens.accessToken
    expires_at := some expiresAt
    token_type := some tokens.tokenType
    refresh_token := if truthy tokens.refreshToken then tokens.refreshToken else s.refresh_token
    id_token := if truthy tokens.idToken then tokens.idToken else s.id_token }

/-- `getTokens` of `tokenStorage.ts`: returns `null` when the access token,
expiry or token type is missing (or the stored string is empty, which is
falsy); otherwise recomputes
`expiresIn = Math.max(0, Math.floor((expiresAt - now) / 1000))` and maps the
falsy stored refresh/id tokens to `undefined` (`refreshToken || undefined`). -/
def getTokens (now : Int) (s : Storage) : Option AuthTokens :=
  match s.access_token, s.expires_at, s.token_type with
  | some accessToken, some expiresAtTimestamp, some tokenType =>
    if accessToken.isEmpty || tokenType.isEmpty then none
    else
      let expiresIn := max 0 ((expiresAtTimestamp - now).fdiv 1000)
      some { accessToken := accessToken
             refreshToken := if truthy s.refresh_token then s.refresh_token else none
             idToken := if truthy s.id_token then s.id_token else none
             expiresIn := expiresIn
             tokenType := tokenType }
  | _, _, _ => none

/-- `isTokenExpired` of `tokenStorage.ts`: `true` when the stored expiry is
absent, `true` when the storage read throws (`readFails`, the `catch` branch
"assume expired on error for safety"), and otherwise
`expiresAt - now <= bufferSeconds * 1000`. -/
def isTokenExpired (bufferSeconds now : Int) (readFails : Bool) (s : Storage) : Bool :=
  if readFails then true
  else
    match s.expires_at with
    | none => true
    | some expiresAtTimestamp => decide (expiresAtTimestamp - now ≤ bufferSeconds * 1000)

/-- `clearTokens` of `tokenStorage.ts`: deletes all five keys. -/
def clearTokens (_s : Storage) : Storage := Storage.empty

/-- Outcome of `authRequest.promptAsync(discovery)` in `loginWithWorkOS`:
the result `type` is `cancel`, `dismiss`, `success` (carrying the optional
`params.code`), or some other non-success type (`error`, `locked`). -/
inductive BrowserResult where
  | cancel
  | dismiss
  | success (code : Option String)
  | other
deriving DecidableEq, Repr

/-- The external inputs one `loginWithWorkOS` call can observe: the browser
hand-off outcome, the token endpoint's response to the code exchange
(`none` = non-2xx / transport failure), whether the SecureStore write throws,
and the userinfo endpoint's response. -/
structure LoginEnv where
  browser : BrowserResult
  exchangeResponse : Option TokenRefreshResponse
  storeFails : Bool
  userInfoResponse : Option UserInfoResponse
deriving DecidableEq, Repr

/-- `exchangeCodeForTokens` of `authService.ts`: POSTs the code and verifier
(the request body does not affect the modelled result) and maps the response
fields onto `AuthTokens` verbatim; any failure becomes a `NETWORK_ERROR`. -/
def exchangeCodeForTokens (response : Option TokenRefreshResponse) :
    Except AuthError AuthTokens :=
  match response with
  | none =>
    Except.error ⟨AuthErrorType.NETWORK_ERROR,
      "Failed to exchange authorization code for tokens"⟩
  | some tokenData =>
    Except.ok
      { accessToken := tokenData.access_token
        refreshToken := tokenData.refresh_token
        idToken := tokenData.id_token
        expiresIn := tokenData.expires_in
        tokenType := tokenData.token_type }

/-- `fetchUserInfo` of `authService.ts`: maps the standard identity claims
onto `User`; any failure becomes a `NETWORK_ERROR`. -/
def fetchUserInfo (response : Option UserInfoResponse) : Except AuthError User :=
  match response with
  | none =>
    Except.error ⟨AuthErrorType.NETWORK_ERROR, "Failed to fetch user information"⟩
  | some userInfo =>
    Except.ok
      { id := userInfo.sub
        email := userInfo.email
        firstName := userInfo.given_name
        lastName := userInfo.family_name
        profilePictureUrl := userInfo.picture
        organizationId := userInfo.organization_id }

/-- `refreshAccessToken` of `authService.ts`: on a 2xx response builds the
new TokenSet, carrying the caller's refresh token forward when the response's
`refresh_token` is falsy (`tokenData.refresh_token || refreshToken`), then
persists it with `storeTokens` before returning.  Any failure — non-2xx,
transport, or the store throwing — is wrapped as `REFRESH_FAILED`. -/
def refreshAccessToken (now : Int) (refreshToken : String)
    (response : Option TokenRefreshResponse) (storeFails : Bool) (s : Storage) :
    Except AuthError (AuthTokens × Storage) :=
  match response with
  | none => Except.error ⟨AuthErrorType.REFRESH_FAILED, "Failed to refresh access token"⟩
  | some tokenData =>
    let tokens : AuthTokens :=
      { accessToken := tokenData.access_token
        refreshToken := some (jsOr tokenData.refresh_token refreshToken)
        idToken := tokenData.id_token
        expiresIn := tokenData.expires_in
        tokenType := tokenData.token_type }
    if storeFails then
      Except.error ⟨AuthErrorType.REFRESH_FAILED, "Failed to refresh access token"⟩
    else
      Except.ok (tokens, storeTokens now tokens s)

/-- `loginWithWorkOS` of `authService.ts`.  The PKCE pair it generates only
feeds the authorization URL and the exchange request, both absorbed by the
oracles.  Cancellation and dismissal raise `USER_CANCELLED`; a non-success
result or a missing/falsy `params.code` raises `INVALID_CREDENTIALS`; then
the code is exchanged, the tokens stored (a throwing store is not an
`AuthError` and is wrapped by the outer catch as `UNKNOWN_ERROR`), and the
profile fetched.  The second component is the storage after the call. -/
def loginWithWorkOS (now : Int) (env : LoginEnv) (s : Storage) :
    Except AuthError (AuthTokens × User) × Storage :=
  match env.browser with
  | BrowserResult.cancel =>
    (Except.error ⟨AuthErrorType.USER_CANCELLED,
      "User cancelled the authentication process"⟩, s)
  | BrowserResult.dismiss =>
    (Except.error ⟨AuthErrorType.USER_CANCELLED,
      "User cancelled the authentication process"⟩, s)
  | BrowserResult.other =>
    (Except.error ⟨AuthErrorType.INVALID_CREDENTIALS, "Authentication failed"⟩, s)
  | BrowserResult.success code =>
    if truthy code = false then
      (Except.error ⟨AuthErrorType.INVALID_CREDENTIALS, "No authorization code received"⟩, s)
    else
      match exchangeCodeForTokens env.exchangeResponse with
      | Except.error e => (Except.error e, s)
      | Except.ok tokens =>
        if env.storeFails then
          (Except.error ⟨AuthErrorType.UNKNOWN_ERROR,
            "An unexpected error occurred during login"⟩, s)
        else
          let s' := storeTokens now tokens s
          match fetchUserInfo env.userInfoResponse with
          | Except.error e => (Except.error e, s')
          | Except.ok user => (Except.ok (tokens, user), s')

/-- `logout` of `authService.ts` (imported as `logoutService` by the
context): clears all stored tokens, wrapping a throwing clear as an
`UNKNOWN_ERROR`. -/
def logoutService (clearFails : Bool) (s : Storage) : Except AuthError Storage :=
  if clearFails then Except.error ⟨AuthErrorType.UNKNOWN_ERROR, "Failed to log out"⟩
  else Except.ok (clearTokens s)

/-- `restoreSession` of `authService.ts`.  Reads the stored tokens; `null`
when none.  When expired with a refresh token present, tries to refresh and
fetch the profile, clearing tokens and returning `null` on failure; when
expired without a refresh token, clears tokens and returns `null`; otherwise
fetches the profile with the stored access token, with the outer catch also
degrading to clear-and-`null`.  `Except.error ()` is the doubly-failing path
where `clearTokens` itself throws inside a catch, so the promise rejects. -/
def restoreSession (now : Int) (refreshResponse : Option TokenRefreshResponse)
    (storeFails : Bool) (userInfoResponse : Option UserInfoResponse)
    (clearFails readFails : Bool) (s : Storage) :
    Except Unit (Option (AuthTokens × User)) × Storage :=
  match getTokens now s with
  | none => (Except.ok none, s)
  | some tokens =>
    let expired := isTokenExpired tokenRefreshBuffer now readFails s
    if expired && truthy tokens.refreshToken then
      match refreshAccessToken now (tokens.refreshToken.getD "") refreshResponse storeFails s with
      | Except.ok (newTokens, s') =>
        match fetchUserInfo userInfoResponse with
        | Except.ok user => (Except.ok (some (newTokens, user)), s')
        | Except.error _ =>
          if clearFails then (Except.error (), s') else (Except.ok none, clearTokens s')
      | Except.error _ =>
        if clearFails then (Except.error (), s) else (Except.ok none, clearTokens s)
    else if expired then
      if clearFails then (Except.error (), s) else (Except.ok none, clearTokens s)
    else
      match fetchUserInfo userInfoResponse with
      | Except.ok user => (Except.ok (some (tokens, user)), s)
      | Except.error _ =>
        if clearFails then (Except.error (), s) else (Except.ok none, clearTokens s)

/-- `getValidAccessToken` of `authService.ts` (the Session Controller read
path): `null` when nothing is stored; when expired with a refresh token,
refresh and return the new access token (`null` when the refresh throws);
when expired without one, `null`; otherwise the stored access token. -/
def getValidAccessToken (now : Int) (response : Option TokenRefreshResponse)
    (storeFails readFails : Bool) (s : Storage) : Option String × Storage :=
  match getTokens now s with
  | none => (none, s)
  | some tokens =>
    let expired := isTokenExpired tokenRefreshBuffer now readFails s
    if expired && truthy tokens.refreshToken then
      match refreshAccessToken now (tokens.refreshToken.getD "") response storeFails s with
      | Except.ok (newTokens, s') => (some newTokens.accessToken, s')
      | Except.error _ => (none, s)
    else if expired then (none, s)
    else (some tokens.accessToken, s)

/-- The initial `useState` value of `AuthProvider`: loading while the
startup restoration runs. -/
def initialAuthState : AuthState :=
  { user := none, tokens := none, isLoading := true, isAuthenticated := false, error := none }

/-- `setAuthSuccess` of `AuthContext.tsx`: replaces the whole snapshot. -/
def setAuthSuccess (user : User) (tokens : AuthTokens) : AuthState :=
  { user := some user, tokens := some tokens, isLoading := false,
    isAuthenticated := true, error := none }

/-- `setAuthLoggedOut` of `AuthContext.tsx`: replaces the whole snapshot. -/
def setAuthLoggedOut : AuthState :=
  { user := none, tokens := none, isLoading := false,
    isAuthenticated := false, error := none }

/-- `setAuthError` of `AuthContext.tsx`: spreads the previous snapshot,
clearing `isLoading` and setting `error` — user and tokens are untouched. -/
def setAuthError (error : String) (prev : AuthState) : AuthState :=
  { prev with isLoading := false, error := some error }

/-- `clearError` of `AuthContext.tsx`. -/
def clearError (prev : AuthState) : AuthState := { prev with error := none }

/-- The error-message selection in the catch of the context's `login`. -/
def loginErrorMessage (e : AuthError) : String :=
  match e.type with
  | AuthErrorType.USER_CANCELLED => "Login was cancelled"
  | AuthErrorType.NETWORK_ERROR => "Network error. Please check your connection and try again"
  | AuthErrorType.INVALID_CREDENTIALS => "Authentication failed. Please try again"
  | _ => e.message

/-- `login` of `AuthContext.tsx`: sets loading (spreading the previous
snapshot), runs `loginWithWorkOS`, and either installs the success snapshot
or maps the `AuthError` type to a user-facing message via `setAuthError`. -/
def login (now : Int) (env : LoginEnv) (st : AuthState) (s : Storage) :
    AuthState × Storage :=
  let st1 := { st with isLoading := true, error := none }
  match loginWithWorkOS now env s with
  | (Except.ok (tokens, user), s') => (setAuthSuccess user tokens, s')
  | (Except.error e, s') => (setAuthError (loginErrorMessage e) st1, s')

/-- `logout` of `AuthContext.tsx`: sets loading, calls the service logout,
and installs the logged-out snapshot whether or not clearing threw. -/
def logout (clearFails : Bool) (st : AuthState) (s : Storage) : AuthState × Storage :=
  let _st1 := { st with isLoading := true, error := none }
  match logoutService clearFails s with
  | Except.ok s' => (setAuthLoggedOut, s')
  | Except.error _ => (setAuthLoggedOut, s)

/-- `refreshToken` of `AuthContext.tsx`: reads the stored tokens; without a
truthy refresh token it throws into its own catch; on a successful service
refresh it replaces only `tokens` (and clears `error`) in the previous
snapshot; on any failure it runs `logout()` and then sets the session-expired
error. -/
def refreshToken (now : Int) (response : Option TokenRefreshResponse)
    (storeFails clearFails : Bool) (st : AuthState) (s : Storage) :
    AuthState × Storage :=
  match getTokens now s with
  | some tokens =>
    if truthy tokens.refreshToken then
      match refreshAccessToken now (tokens.refreshToken.getD "") response storeFails s with
      | Except.ok (newTokens, s') =>
        ({ st with tokens := some newTokens, error := none }, s')
      | Except.error _ =>
        let (st1, s1) := logout clearFails st s
        (setAuthError "Your session has expired. Please log in again" st1, s1)
    else
      let (st1, s1) := logout clearFails st s
      (setAuthError "Your session has expired. Please log in again" st1, s1)
  | none =>
    let (st1, s1) := logout clearFails st s
    (setAuthError "Your session has expired. Please log in again" st1, s1)

/-- `attemptSessionRestore` of `AuthContext.tsx` (the mount effect): installs
the success snapshot when `restoreSession` yields a session, and the
logged-out snapshot when it yields `null` or rejects. -/
def attemptSessionRestore (now : Int) (refreshResponse : Option TokenRefreshResponse)
    (storeFails : Bool) (userInfoResponse : Option UserInfoResponse)
    (clearFails readFails : Bool) (s : Storage) : AuthState × Storage :=
  match restoreSession now refreshResponse storeFails userInfoResponse clearFails readFails s with
  | (Except.ok (some (tokens, user)), s') => (setAuthSuccess user tokens, s')
  | (Except.ok none, s') => (setAuthLoggedOut, s')
  | (Except.error _, s') => (setAuthLoggedOut, s')

/-- Condition under which an optional TokenSet field survives the
store/read round trip unchanged: either the field is a present, non-empty
string (so `storeTokens` writes it), or it is absent and the previously
stored slot is falsy (so the stale slot reads back as absent). -/
def optFieldRoundTrip (field stored : Option String) : Prop :=
  match field with
  | some r => r.isEmpty = false
  | none => truthy stored = false

/-- C3 as amended.  Reading at most one second after writing returns the
TokenSet's access token, token type and (under `optFieldRoundTrip`, which
rules out a stale previously stored value shining through an absent or
empty optional field) its refresh and id tokens unchanged, with an
`expiresIn` within one second of the stored one.  Non-empty access token
and token type and a non-negative `expiresIn` are required because falsy
stored fields make `getTokens` return null and remaining validity is
clamped at zero. -/
theorem storeTokens_getTokens_roundtrip (now d : Int) (t : AuthTokens) (s : Storage)
    (hd0 : 0 ≤ d) (hd1 : d ≤ 1000)
    (hat : t.accessToken.isEmpty = false)
    (htt : t.tokenType.isEmpty = false)
    (he : 0 ≤ t.expiresIn)
    (hrt : optFieldRoundTrip t.refreshToken s.refresh_token)
    (hit : optFieldRoundTrip t.idToken s.id_token) :
    ∃ e : Int, getTokens (now + d) (storeTokens now t s) =
        some { accessToken := t.accessToken, refreshToken := t.refreshToken,
               idToken := t.idToken, expiresIn := e, tokenType := t.tokenType } ∧
      t.expiresIn - 1 ≤ e ∧ e ≤ t.expiresIn := by
  refine ⟨max 0 ((now + t.expiresIn * 1000 - (now + d)).fdiv 1000), ?_, ?_⟩
  · have hR : (if truthy (if truthy t.refreshToken then t.refreshToken else s.refresh_token)
        then (if truthy t.refreshToken then t.refreshToken else s.refresh_token)
        else none) = t.refreshToken := by
      cases hf : t.refreshToken with
      | some r =>
        rw [hf] at hrt
        simp only [optFieldRoundTrip] at hrt
        have h1 : truthy (some r) = true := by simp [truthy, hrt]
        simp [h1]
      | none =>
        rw [hf] at hrt
        simp only [optFieldRoundTrip] at hrt
        have h0 : truthy (none : Option String) = false := rfl
        rw [h0]
        simp [hrt]
    have hI : (if truthy (if truthy t.idToken then t.idToken else s.id_token)
        then (if truthy t.idToken then t.idToken else s.id_token)
        else none) = t.idToken := by
      cases hf : t.idToken with
      | some r =>
        rw [hf] at hit
        simp only [optFieldRoundTrip] at hit
        have h1 : truthy (some r) = true := by simp [truthy, hit]
        simp [h1]
      | none =>
        rw [hf] at hit
        simp only [optFieldRoundTrip] at hit
        have h0 : truthy (none : Option String) = false := rfl
        rw [h0]
        simp [hit]
    unfold storeTokens getTokens
    simp only [hat, htt, Bool.or_self, Bool.false_eq_true, if_false, hR, hI]
  · have harg : now + t.expiresIn * 1000 - (now + d) = t.expiresIn * 1000 - d := by ring
    rw [harg, Int.fdiv_eq_ediv _ (by norm_num)]
    omega

/-- A pre-existing store holding a refresh token from a previous session. -/
def staleStore : Storage :=
  { access_token := some "old_access", refresh_token := some "old_refresh",
    id_token := none, expires_at := some 5000, token_type := some "Bearer" }

/-- A TokenSet with no refresh token, as stored over `staleStore`. -/
def freshTokens : AuthTokens :=
  { accessToken := "new_access", refreshToken := none, idToken := none,
    expiresIn := 3600, tokenType := "Bearer" }

/-- Counterexample to C3.  Storing a TokenSet without a refresh token over
a store that has one does not erase the old value: the immediate read
returns the stale `refreshToken = "old_refresh"` instead of the stored
TokenSet's absent field. -/
theorem stale_refreshToken_counterexample :
    getTokens 0 (storeTokens 0 freshTokens staleStore) =
      some { accessToken := "new_access", refreshToken := some "old_refresh",
             idToken := none, expiresIn := 3600, tokenType := "Bearer" } ∧
    freshTokens.refreshToken = none := by
  decide

/-- Witness for the amended C3 at a concrete input, with the clock advanced
by a full second between the write and the read. -/
theorem storeTokens_getTokens_roundtrip_witness :
    ∃ e : Int, getTokens (0 + 1000)
        (storeTokens 0 ⟨"a", some "r", none, 3600, "Bearer"⟩ Storage.empty) =
        some { accessToken := "a", refreshToken := some "r", idToken := none,
               expiresIn := e, tokenType := "Bearer" } ∧
      (3600 : Int) - 1 ≤ e ∧ e ≤ 3600 :=
  storeTokens_getTokens_roundtrip 0 1000 ⟨"a", some "r", none, 3600, "Bearer"⟩
    Storage.empty (by norm_num) (by norm_num) rfl rfl (by norm_num) rfl rfl

/-- The standard base64 alphabet used by `btoa`. -/
def base64Chars : List Char :=
  "ABCDEFGHIJKLMNOPQRSTUVWXYZabcdefghijklmnopqrstuvwxyz0123456789+/".toList

/-- The base64 digit for a 6-bit index. -/
def b64Char (n : Nat) : Char := base64Chars.getD n 'A'

/-- `btoa(String.fromCharCode(...bytes))`: standard base64 of a byte list,
three bytes per four digits, with `=` padding for a 1- or 2-byte tail. -/
def base64Encode : List Nat → List Char
  | [] => []
  | [b1] => [b64Char (b1 / 4), b64Char (b1 % 4 * 16), '=', '=']
  | [b1, b2] => [b64Char (b1 / 4), b64Char (b1 % 4 * 16 + b2 / 16),
                 b64Char (b2 % 16 * 4), '=']
  | b1 :: b2 :: b3 :: rest =>
    b64Char (b1 / 4) :: b64Char (b1 % 4 * 16 + b2 / 16) ::
    b64Char (b2 % 16 * 4 + b3 / 64) :: b64Char (b3 % 64) :: base64Encode rest

/-- The base64url substitution of `generateCodeVerifier`:
`+` becomes `-` and `/` becomes `_`. -/
def urlReplace (c : Char) : Char :=
  if c = '+' then '-' else if c = '/' then '_' else c

/-- A character of the base64url alphabet: `A`-`Z`, `a`-`z`, `0`-`9`,
`-` or `_`. -/
def isBase64UrlChar (c : Char) : Bool :=
  (('A' ≤ c && c ≤ 'Z') || ('a' ≤ c && c ≤ 'z') || ('0' ≤ c && c ≤ '9')
    || c = '-' || c = '_')

/-- `generateCodeVerifier` of `authService.ts`, applied to the 32 bytes drawn
from `Crypto.getRandomBytes(32)`: base64-encode, replace `+` and `/` by
their URL-safe counterparts, and strip the `=` padding. -/
def generateCodeVerifier (randomBytes : List Nat) : String :=
  String.mk (((base64Encode randomBytes).map urlReplace).filter (fun c => c ≠ '='))

/-- One step of the Session Controller: the four context operations plus
`clearError`, each carrying the external inputs it can observe. -/
inductive Op where
  | loginOp (now : Int) (env : LoginEnv)
  | logoutOp (clearFails : Bool)
  | refreshOp (now : Int) (response : Option TokenRefreshResponse)
      (storeFails clearFails : Bool)
  | restoreOp (now : Int) (refreshResponse : Option TokenRefreshResponse)
      (storeFails : Bool) (userInfoResponse : Option UserInfoResponse)
      (clearFails readFails : Bool)
  | clearErrorOp

/-- Applies one Session Controller operation to the snapshot and storage. -/
def applyOp : Op → AuthState × Storage → AuthState × Storage
  | Op.loginOp now env, (st, s) => login now env st s
  | Op.logoutOp clearFails, (st, s) => logout clearFails st s
  | Op.refreshOp now response storeFails clearFails, (st, s) =>
    refreshToken now response storeFails clearFails st s
  | Op.restoreOp now refreshResponse storeFails userInfoResponse clearFails readFails,
      (_st, s) =>
    attemptSessionRestore now refreshResponse storeFails userInfoResponse clearFails readFails s
  | Op.clearErrorOp, (st, s) => (clearError st, s)

/-- The states the Session Controller can reach: the initial snapshot over
any pre-existing storage, closed under the five operations. -/
inductive Reachable : AuthState × Storage → Prop where
  | init (s : Storage) : Reachable (initialAuthState, s)
  | step (op : Op) {p : AuthState × Storage} : Reachable p → Reachable (applyOp op p)

/-- The `SessionState` invariant of the spec:
`isAuthenticated == (user != null && tokens != null)`. -/
def authInv (st : AuthState) : Prop :=
  st.isAuthenticated = (st.user.isSome && st.tokens.isSome)

/-- Strengthened inductive invariant: `authInv` together with "a non-null
user implies non-null tokens" (needed because the refresh success path
overwrites only `tokens`). -/
def authInvStrong (st : AuthState) : Prop :=
  authInv st ∧ (st.user.isSome = true → st.tokens.isSome = true)

/-- An `Idle` snapshot: unauthenticated, not loading, no error. -/
def idleState : AuthState :=
  { user := none, tokens := none, isLoading := false,
    isAuthenticated := false, error := none }

/-- A login environment whose browser hand-off reports user cancellation. -/
def cancelEnv : LoginEnv :=
  { browser := BrowserResult.cancel, exchangeResponse := none,
    storeFails := false, userInfoResponse := none }

/-- C1.  The claim (and the repository's own README, "USER_CANCELLED —
Silent, don't alert") says cancellation returns the state to `Idle` with
`error` still null.  Evaluating the code at the failing input: `login()`
from `Idle` with the browser reporting `cancel` does null `user`/`tokens`
and clear `isLoading`, but it sets `error` to "Login was cancelled", which
the login screen then surfaces in an alert. -/
theorem login_cancel_sets_error :
    login 0 cancelEnv idleState Storage.empty =
      ({ user := none, tokens := none, isLoading := false,
         isAuthenticated := false, error := some "Login was cancelled" },
       Storage.empty) := by
  decide

/-- C7.  `logout()` always ends in the `Idle` snapshot — user and tokens
null, not loading, not authenticated, no error — both when `clearTokens()`
succeeds and when it throws. -/
theorem logout_always_idle (clearFails : Bool) (st : AuthState) (s : Storage) :
    (logout clearFails st s).1 =
      { user := none, tokens := none, isLoading := false,
        isAuthenticated := false, error := none } := by
  cases clearFails <;> rfl

/-- C9.  `isTokenExpired(bufferSeconds)` is true whenever the storage read
throws, true whenever the stored expiry is absent, and otherwise true
exactly when `expiresAt - now <= bufferSeconds * 1000`. -/
theorem isTokenExpired_spec (bufferSeconds now : Int) (readFails : Bool) (s : Storage) :
    (readFails = true → isTokenExpired bufferSeconds now readFails s = true) ∧
    (s.expires_at = none → isTokenExpired bufferSeconds now readFails s = true) ∧
    (∀ e : Int, readFails = false → s.expires_at = some e →
      (isTokenExpired bufferSeconds now readFails s = true ↔
        e - now ≤ bufferSeconds * 1000)) := by
  refine ⟨?_, ?_, ?_⟩
  · intro h; simp [isTokenExpired, h]
  · intro h; cases readFails <;> simp [isTokenExpired, h]
  · intro e hr he; simp [isTokenExpired, hr, he]

/-- Witness for C9 at concrete inputs: a failing read is expired, an empty
store is expired, and a stored expiry of 5000 ms at time 0 with a 300 s
buffer is within the buffer. -/
theorem isTokenExpired_spec_witness :
    isTokenExpired 300 0 true Storage.empty = true ∧
    isTokenExpired 300 0 false Storage.empty = true ∧
    (isTokenExpired 300 0 false ⟨some "a", none, none, some 5000, some "B"⟩ = true ↔
      (5000 : Int) - 0 ≤ 300 * 1000) :=
  ⟨(isTokenExpired_spec 300 0 true Storage.empty).1 rfl,
   (isTokenExpired_spec 300 0 false Storage.empty).2.1 rfl,
   (isTokenExpired_spec 300 0 false ⟨some "a", none, none, some 5000, some "B"⟩).2.2
     5000 rfl rfl⟩

/-- C5.  When `refreshAccessToken` succeeds, a response that omits a
`refresh_token` makes the returned TokenSet carry the caller's original
refresh token forward, and the storage after the call is exactly
`storeTokens` applied to the returned TokenSet. -/
theorem refreshAccessToken_success_spec (now : Int) (rt : String)
    (td : TokenRefreshResponse) (storeFails : Bool) (s : Storage)
    (tokens : AuthTokens) (s' : Storage)
    (h : refreshAccessToken now rt (some td) storeFails s = Except.ok (tokens, s')) :
    (td.refresh_token = none → tokens.refreshToken = some rt) ∧
    s' = storeTokens now tokens s := by
  cases storeFails with
  | true => simp [refreshAccessToken] at h
  | false =>
    simp only [refreshAccessToken, if_neg (by simp : ¬(false = true)),
      Except.ok.injEq, Prod.mk.injEq] at h
    obtain ⟨htok, hs⟩ := h
    subst htok
    constructor
    · intro hnone; simp [hnone, jsOr]
    · exact hs.symm

/-- A token-endpoint response for a fully successful login. -/
def okResp : TokenRefreshResponse :=
  { access_token := "acc1", refresh_token := some "ref1", id_token := none,
    expires_in := 3600, token_type := "Bearer" }

/-- A userinfo response for a fully successful login. -/
def okUser : UserInfoResponse :=
  { sub := "user_1", email := "u@example.com", given_name := none,
    family_name := none, picture := none, organization_id := none }

/-- A login environment in which every step succeeds. -/
def successEnv : LoginEnv :=
  { browser := BrowserResult.success (some "authcode"), exchangeResponse := some okResp,
    storeFails := false, userInfoResponse := some okUser }

/-- A login environment whose code exchange fails with a network error. -/
def netFailEnv : LoginEnv :=
  { browser := BrowserResult.success (some "authcode2"), exchangeResponse := none,
    storeFails := false, userInfoResponse := none }

/-- Counterexample to C2.  A successful `login()` from the initial state
reaches an authenticated snapshot; a second, failing `login()` then sets a
non-null `error` while leaving `user` and `tokens` non-null — `setAuthError`
spreads the previous snapshot instead of clearing it. -/
theorem error_with_nonnull_user_counterexample :
    (login 0 netFailEnv (login 0 successEnv initialAuthState Storage.empty).1
        (login 0 successEnv initialAuthState Storage.empty).2).1.error =
      some "Network error. Please check your connection and try again" ∧
    (login 0 netFailEnv (login 0 successEnv initialAuthState Storage.empty).1
        (login 0 successEnv initialAuthState Storage.empty).2).1.user ≠ none ∧
    (login 0 netFailEnv (login 0 successEnv initialAuthState Storage.empty).1
        (login 0 successEnv initialAuthState Storage.empty).2).1.tokens ≠ none := by
  decide

/-- C2 as amended.  Error snapshots come only from `setAuthError`, which
preserves the prior `user`, `tokens` and `isAuthenticated`: the
refresh-failure path logs out before setting its error, so it always yields
the logged-out snapshot with the session-expired message; a `login()`
failure, by contrast, keeps the pre-login `user` and `tokens` — non-null
when the user was already authenticated. -/
theorem error_state_characterization :
    (∀ (now : Int) (response : Option TokenRefreshResponse)
       (storeFails clearFails : Bool) (st : AuthState) (s : Storage),
      (refreshToken now response storeFails clearFails st s).1.error = none ∨
      (refreshToken now response storeFails clearFails st s).1 =
        { user := none, tokens := none, isLoading := false, isAuthenticated := false,
          error := some "Your session has expired. Please log in again" }) ∧
    (∀ (now : Int) (env : LoginEnv) (st : AuthState) (s : Storage),
      (login now env st s).1.error = none ∨
      ((login now env st s).1.user = st.user ∧
       (login now env st s).1.tokens = st.tokens ∧
       (login now env st s).1.isAuthenticated = st.isAuthenticated)) := by
  constructor
  · intro now response storeFails clearFails st s
    unfold refreshToken
    unfold logout logoutService setAuthError setAuthLoggedOut
    rcases getTokens now s with _ | tokens
    · right; cases clearFails <;> rfl
    · by_cases hrt : truthy tokens.refreshToken = true
      · simp only [hrt, if_true]
        rcases h : refreshAccessToken now (tokens.refreshToken.getD "") response storeFails s
          with e | ⟨newTokens, s'⟩ <;> simp only [h]
        · right; cases clearFails <;> rfl
        · exact Or.inl trivial
      · simp only [if_neg hrt]
        right; cases clearFails <;> rfl
  · intro now env st s
    unfold login
    rcases h : loginWithWorkOS now env s with ⟨res, s'⟩
    rcases res with e | ok <;> simp [setAuthError, setAuthSuccess]

/-- C6.  When `restoreSession()` finds stored tokens that are expired within
the configured buffer and a refresh token is present but the refresh call
fails, the stored tokens are cleared, the resulting snapshot is `Idle`
(user and tokens null, not loading), and no error is surfaced. -/
theorem restore_refresh_failure_goes_idle (now : Int)
    (resp : Option TokenRefreshResponse) (storeFails : Bool)
    (uresp : Option UserInfoResponse) (s : Storage) (tk : AuthTokens) (e : AuthError)
    (hget : getTokens now s = some tk)
    (hexp : isTokenExpired tokenRefreshBuffer now false s = true)
    (hrt : truthy tk.refreshToken = true)
    (hfail : refreshAccessToken now (tk.refreshToken.getD "") resp storeFails s =
      Except.error e) :
    attemptSessionRestore now resp storeFails uresp false false s =
      ({ user := none, tokens := none, isLoading := false,
         isAuthenticated := false, error := none }, Storage.empty) := by
  unfold attemptSessionRestore restoreSession
  rw [hget]
  simp only [hexp, hrt, Bool.and_self, if_pos rfl, hfail]
  rfl

/-- A stored token set that is already expired at time 10^6 and carries a
refresh token. -/
def expiredRefreshableStore : Storage :=
  { access_token := some "a", refresh_token := some "r", id_token := none,
    expires_at := some 0, token_type := some "Bearer" }

/-- Witness for C6: a concrete expired, refreshable store whose refresh
call fails with a network error ends in the Idle snapshot with storage
cleared. -/
theorem restore_refresh_failure_goes_idle_witness :
    attemptSessionRestore 1000000 none false none false false expiredRefreshableStore =
      ({ user := none, tokens := none, isLoading := false,
         isAuthenticated := false, error := none }, Storage.empty) :=
  restore_refresh_failure_goes_idle 1000000 none false none expiredRefreshableStore
    ⟨"a", some "r", none, 0, "Bearer"⟩
    ⟨AuthErrorType.REFRESH_FAILED, "Failed to refresh access token"⟩
    (by decide) (by decide) (by decide) rfl

/-- C4 as amended.  With tokens stored, `getValidAccessToken()` returns the
stored access token when it is not within `bufferSeconds` of expiry, the
freshly refreshed access token when it is expired, a refresh token is
stored and the refresh succeeds, and null when it is expired with no
refresh token.  The non-refresh return is therefore never within
`bufferSeconds` of expiry; the refreshed return is handed out as issued by
the server, without a new buffer check. -/
theorem getValidAccessToken_spec (now : Int) (resp : Option TokenRefreshResponse)
    (storeFails : Bool) (s : Storage) (tk : AuthTokens)
    (hget : getTokens now s = some tk) :
    (isTokenExpired tokenRefreshBuffer now false s = false →
      getValidAccessToken now resp storeFails false s = (some tk.accessToken, s)) ∧
    (∀ (newTokens : AuthTokens) (s' : Storage),
      isTokenExpired tokenRefreshBuffer now false s = true →
      truthy tk.refreshToken = true →
      refreshAccessToken now (tk.refreshToken.getD "") resp storeFails s =
        Except.ok (newTokens, s') →
      getValidAccessToken now resp storeFails false s = (some newTokens.accessToken, s')) ∧
    (isTokenExpired tokenRefreshBuffer now false s = true →
      truthy tk.refreshToken = false →
      getValidAccessToken now resp storeFails false s = (none, s)) := by
  unfold getValidAccessToken
  rw [hget]
  refine ⟨?_, ?_, ?_⟩
  · intro hvalid; simp [hvalid]
  · intro newTokens s' hexp hrt hok; simp [hexp, hrt, hok]
  · intro hexp hrt; simp [hexp, hrt]

/-- A token-endpoint refresh response whose new access token expires
immediately (`expires_in = 0`). -/
def shortLivedResp : TokenRefreshResponse :=
  { access_token := "short_access", refresh_token := none, id_token := none,
    expires_in := 0, token_type := "Bearer" }

/-- Counterexample to C4's universal guarantee.  An expired store with a
refresh token, refreshed by a server granting `expires_in = 0`: the caller
receives the new access token even though it is already within
`bufferSeconds` of its expiry (the storage now written records it as
expired under the same buffer at the same instant). -/
theorem getValidAccessToken_buffer_counterexample :
    (getValidAccessToken 1000000 (some shortLivedResp) false false
        expiredRefreshableStore).1 = some "short_access" ∧
    isTokenExpired tokenRefreshBuffer 1000000 false
      (getValidAccessToken 1000000 (some shortLivedResp) false false
        expiredRefreshableStore).2 = true := by
  decide

/-- A stored token set that is still far from expiry at time 0. -/
def freshStore : Storage :=
  { access_token := some "va", refresh_token := none, id_token := none,
    expires_at := some 1000000000, token_type := some "Bearer" }

/-- A stored token set that is expired and has no refresh token. -/
def expiredBareStore : Storage :=
  { access_token := some "xa", refresh_token := none, id_token := none,
    expires_at := some 0, token_type := some "Bearer" }

/-- Witness for C4's amended theorem, exercising all three branches at
concrete stores: valid token returned as-is, expired-with-refresh returns
the refreshed token, expired-without-refresh returns null. -/
theorem getValidAccessToken_spec_witness :
    getValidAccessToken 0 none false false freshStore = (some "va", freshStore) ∧
    getValidAccessToken 1000000 (some okResp) false false expiredRefreshableStore =
      (some "acc1",
        storeTokens 1000000 ⟨"acc1", some "ref1", none, 3600, "Bearer"⟩
          expiredRefreshableStore) ∧
    getValidAccessToken 1000000 none false false expiredBareStore =
      (none, expiredBareStore) :=
  ⟨(getValidAccessToken_spec 0 none false freshStore
      ⟨"va", none, none, 1000000, "Bearer"⟩ (by decide)).1 (by decide),
   (getValidAccessToken_spec 1000000 (some okResp) false expiredRefreshableStore
      ⟨"a", some "r", none, 0, "Bearer"⟩ (by decide)).2.1
      ⟨"acc1", some "ref1", none, 3600, "Bearer"⟩
      (storeTokens 1000000 ⟨"acc1", some "ref1", none, 3600, "Bearer"⟩
        expiredRefreshableStore)
      (by decide) (by decide) rfl,
   (getValidAccessToken_spec 1000000 none false expiredBareStore
      ⟨"xa", none, none, 0, "Bearer"⟩ (by decide)).2.2 (by decide) (by decide)⟩

/-- A concrete successful refresh used to exercise
`refreshAccessToken_success_spec`. -/
def refreshDemoTokens : AuthTokens :=
  { accessToken := "na", refreshToken := some "myrt", idToken := none,
    expiresIn := 3600, tokenType := "Bearer" }

/-- Witness for C5: refreshing with caller token "myrt" against a response
with no `refresh_token` yields a TokenSet whose refresh token is "myrt". -/
theorem refreshAccessToken_success_spec_witness :
    refreshDemoTokens.refreshToken = some "myrt" :=
  (refreshAccessToken_success_spec 0 "myrt"
      ⟨"na", none, none, 3600, "Bearer"⟩ false Storage.empty
      refreshDemoTokens (storeTokens 0 refreshDemoTokens Storage.empty) rfl).1 rfl

/-- Every Session Controller operation preserves the strengthened
invariant: `isAuthenticated` mirrors `user`/`tokens` presence, and a
present user always comes with present tokens. -/
theorem applyOp_preserves_authInvStrong (op : Op) (p : AuthState × Storage)
    (h : authInvStrong p.1) : authInvStrong (applyOp op p).1 := by
  obtain ⟨st, s⟩ := p
  cases op with
  | loginOp now env =>
    simp only [applyOp, login]
    rcases loginWithWorkOS now env s with ⟨res, s'⟩
    rcases res with e | ⟨tokens, user⟩
    · simpa [setAuthError, authInvStrong, authInv] using h
    · simp [setAuthSuccess, authInvStrong, authInv]
  | logoutOp clearFails =>
    cases clearFails <;> simp [applyOp, logout, logoutService, setAuthLoggedOut,
      clearTokens, authInvStrong, authInv]
  | refreshOp now response storeFails clearFails =>
    simp only [applyOp, refreshToken]
    rcases getTokens now s with _ | tokens
    · cases clearFails <;>
        simp [logout, logoutService, setAuthError, setAuthLoggedOut,
          authInvStrong, authInv]
    · by_cases hrt : truthy tokens.refreshToken = true
      · simp only [hrt, if_true]
        rcases refreshAccessToken now (tokens.refreshToken.getD "") response storeFails s
          with e | ⟨newTokens, s'⟩
        · cases clearFails <;>
            simp [logout, logoutService, setAuthError, setAuthLoggedOut,
              authInvStrong, authInv]
        · obtain ⟨h1, h2⟩ := h
          simp only [authInvStrong, authInv] at h1 h2 ⊢
          cases hu : st.user.isSome <;> cases ht : st.tokens.isSome <;> simp_all
      · simp only [if_neg hrt]
        cases clearFails <;>
          simp [logout, logoutService, setAuthError, setAuthLoggedOut,
            authInvStrong, authInv]
  | restoreOp now refreshResponse storeFails userInfoResponse clearFails readFails =>
    simp only [applyOp, attemptSessionRestore]
    rcases restoreSession now refreshResponse storeFails userInfoResponse clearFails
        readFails s with ⟨res, s'⟩
    rcases res with e | o
    · simp [setAuthLoggedOut, authInvStrong, authInv]
    · rcases o with _ | ⟨tokens, user⟩ <;>
        simp [setAuthLoggedOut, setAuthSuccess, authInvStrong, authInv]
  | clearErrorOp =>
    simpa [applyOp, clearError, authInvStrong, authInv] using h

/-- C8.  The `SessionState` invariant
`isAuthenticated == (user != null && tokens != null)` holds in the initial
snapshot and in every snapshot reachable through the Session Controller's
operations, across all success and failure paths. -/
theorem sessionState_invariant :
    authInv initialAuthState ∧ ∀ p, Reachable p → authInv p.1 := by
  constructor
  · rfl
  · intro p hp
    have hstrong : authInvStrong p.1 := by
      induction hp with
      | init s => exact ⟨rfl, by simp [initialAuthState]⟩
      | step op hp ih => exact applyOp_preserves_authInvStrong op _ ih
    exact hstrong.1

/-- Witness for C8: the invariant, instantiated at the reachable initial
configuration. -/
theorem sessionState_invariant_witness :
    initialAuthState.isAuthenticated =
      (initialAuthState.user.isSome && initialAuthState.tokens.isSome) :=
  sessionState_invariant.2 (initialAuthState, Storage.empty) (Reachable.init Storage.empty)

/-- Number of non-padding digits contributed by a tail of the given length
modulo 3: a full group has none left over, a 1-byte tail yields 2 digits,
a 2-byte tail yields 3. -/
def padCount : Nat → Nat
  | 0 => 0
  | 1 => 2
  | _ => 3

/-- Each base64 digit, after the URL-safe substitution, lies in the
base64url alphabet and is never the padding character. -/
theorem b64Char_urlSafe : ∀ n, n < 64 →
    isBase64UrlChar (urlReplace (b64Char n)) = true ∧ urlReplace (b64Char n) ≠ '=' := by
  decide

/-- The total base64 length: four digits per started group of three bytes. -/
theorem base64Encode_length : ∀ l : List Nat,
    (base64Encode l).length = (l.length + 2) / 3 * 4 := by
  intro l
  induction l using base64Encode.induct with
  | case1 => simp [base64Encode]
  | case2 b1 => simp [base64Encode]
  | case3 b1 b2 => simp [base64Encode]
  | case4 b1 b2 b3 rest ih =>
    simp only [base64Encode, List.length_cons, ih]
    omega

/-- The padding character is untouched by the URL-safe substitution. -/
theorem urlReplace_pad : urlReplace '=' = '=' := rfl

/-- Stripping the padding from the URL-substituted base64 digits leaves
`length / 3 * 4 + padCount (length % 3)` characters, all of them in the
base64url alphabet, for any byte list. -/
theorem base64_stripped : ∀ l : List Nat, (∀ b ∈ l, b < 256) →
    (((base64Encode l).map urlReplace).filter (fun c => c ≠ '=')).length =
      l.length / 3 * 4 + padCount (l.length % 3) ∧
    ∀ c ∈ ((base64Encode l).map urlReplace).filter (fun c => c ≠ '='),
      isBase64UrlChar c = true := by
  intro l
  induction l using base64Encode.induct with
  | case1 =>
    intro _
    simp [base64Encode, padCount]
  | case2 b1 =>
    intro hb
    have h1 : b1 < 256 := hb b1 (by simp)
    have i1 := b64Char_urlSafe (b1 / 4) (by omega)
    have i2 := b64Char_urlSafe (b1 % 4 * 16) (by omega)
    constructor
    · simp only [base64Encode, List.map_cons, List.map_nil, List.filter_cons,
        List.filter_nil]
      simp [i1.2, i2.2, padCount, urlReplace_pad]
    · intro c hc
      rw [List.mem_filter] at hc
      obtain ⟨hmem, hne⟩ := hc
      simp only [base64Encode, List.map_cons, List.map_nil, List.mem_cons,
        List.not_mem_nil, or_false, urlReplace_pad] at hmem
      rcases hmem with h | h | h | h
      · subst h; exact i1.1
      · subst h; exact i2.1
      · subst h; simp at hne
      · subst h; simp at hne
  | case3 b1 b2 =>
    intro hb
    have h1 : b1 < 256 := hb b1 (by simp)
    have h2 : b2 < 256 := hb b2 (by simp)
    have i1 := b64Char_urlSafe (b1 / 4) (by omega)
    have i2 := b64Char_urlSafe (b1 % 4 * 16 + b2 / 16) (by omega)
    have i3 := b64Char_urlSafe (b2 % 16 * 4) (by omega)
    constructor
    · simp only [base64Encode, List.map_cons, List.map_nil, List.filter_cons,
        List.filter_nil]
      simp [i1.2, i2.2, i3.2, padCount, urlReplace_pad]
    · intro c hc
      rw [List.mem_filter] at hc
      obtain ⟨hmem, hne⟩ := hc
      simp only [base64Encode, List.map_cons, List.map_nil, List.mem_cons,
        List.not_mem_nil, or_false, urlReplace_pad] at hmem
      rcases hmem with h | h | h | h
      · subst h; exact i1.1
      · subst h; exact i2.1
      · subst h; exact i3.1
      · subst h; simp at hne
  | case4 b1 b2 b3 rest ih =>
    intro hb
    have h1 : b1 < 256 := hb b1 (by simp)
    have h2 : b2 < 256 := hb b2 (by simp)
    have h3 : b3 < 256 := hb b3 (by simp)
    have hbrest : ∀ b ∈ rest, b < 256 := fun b hbr => hb b (by simp [hbr])
    have i1 := b64Char_urlSafe (b1 / 4) (by omega)
    have i2 := b64Char_urlSafe (b1 % 4 * 16 + b2 / 16) (by omega)
    have i3 := b64Char_urlSafe (b2 % 16 * 4 + b3 / 64) (by omega)
    have i4 := b64Char_urlSafe (b3 % 64) (by omega)
    obtain ⟨ihlen, ihmem⟩ := ih hbrest
    simp only [ne_eq, decide_not] at ihlen ihmem
    constructor
    · simp only [base64Encode, List.map_cons, List.filter_cons, List.length_cons]
      simp only [ne_eq, decide_not]
      simp [i1.2, i2.2, i3.2, i4.2, ihlen]
      have hmod : (rest.length + 1 + 1 + 1) % 3 = rest.length % 3 := by omega
      rw [hmod]
      omega
    · intro c hc
      simp only [ne_eq, decide_not] at hc
      rw [List.mem_filter] at hc
      obtain ⟨hmem, hne⟩ := hc
      simp only [base64Encode, List.map_cons, List.mem_cons] at hmem
      rcases hmem with h | h | h | h | h
      · subst h; exact i1.1
      · subst h; exact i2.1
      · subst h; exact i3.1
      · subst h; exact i4.1
      · exact ihmem c (List.mem_filter.mpr ⟨h, by simpa using hne⟩)

/-- C10.  For any 32 bytes drawn from the random source, the code verifier
is exactly 43 characters of the base64url alphabet: the 32 bytes base64
encode to 44 characters whose single `=` padding is stripped. -/
theorem generateCodeVerifier_spec (bytes : List Nat)
    (hlen : bytes.length = 32) (hb : ∀ b ∈ bytes, b < 256) :
    (generateCodeVerifier bytes).length = 43 ∧
    (∀ c ∈ (generateCodeVerifier bytes).data, isBase64UrlChar c = true) ∧
    (base64Encode bytes).length = 44 := by
  obtain ⟨hl, hm⟩ := base64_stripped bytes hb
  refine ⟨?_, ?_, ?_⟩
  · simp only [generateCodeVerifier, String.length, String.data]
    rw [hl, hlen]
    decide
  · intro c hc
    exact hm c (by simpa [generateCodeVerifier] using hc)
  · rw [base64Encode_length bytes, hlen]

/-- Witness for C10 at the all-zero 32-byte input. -/
theorem generateCodeVerifier_spec_witness :
    (generateCodeVerifier (List.replicate 32 0)).length = 43 ∧
    (∀ c ∈ (generateCodeVerifier (List.replicate 32 0)).data, isBase64UrlChar c = true) ∧
    (base64Encode (List.replicate 32 0)).length = 44 :=
  generateCodeVerifier_spec (List.replicate 32 0) (by decide) (by decide)
